import Mathlib

/-!
Verification of the League-of-Legends recording companion
(`src-tauri/src/recorder`): the Event Reconciler (`metadata.rs,
merge_live_events`), the Live Poller's inventory diff
(`game_listener.rs, run_info_poller`), the Metadata Collector
(`metadata.rs, process_data_with_retry`) and the Session State Machine
(`game_listener.rs, run / state_transition`), shallowly embedded as
executable Lean definitions.

Rust strings are modelled as lists of characters (`Str`); every pattern
the code searches for is ASCII, so Rust byte positions coincide with the
character positions used here.  `f64` values that reach arithmetic are
modelled as exact rationals; every concrete input used below is exactly
representable, and products stay exactly representable, so the rational
arithmetic agrees with the IEEE double arithmetic of the source.
-/

namespace LeagueRecord

/-- Characters of a Rust `String`/`&str`. -/
abbrev Str := List Char

/-- `shaco::model::ingame::PlayerItem` (fields the recorder reads). -/
structure PlayerItem where
  itemId : Int
  slot : Int
  deriving DecidableEq, Repr

/-- `riot_datatypes::lcu::Player` (`riot_datatypes/src/lcu/game.rs`). -/
structure Player where
  gameName : Str
  tagLine : Str
  summonerId : Option Int
  deriving DecidableEq, Repr

/-- `impl PartialEq for Player`: equality is by `(game_name, tag_line)` only
(`riot_datatypes/src/lcu/game.rs` lines 35-39). -/
def Player.beqByName (a b : Player) : Bool :=
  a.gameName == b.gameName && a.tagLine == b.tagLine

/-- `riot_datatypes::lcu::ParticipantIdentity`. -/
structure ParticipantIdentity where
  participantId : Int
  player : Player
  deriving DecidableEq, Repr

/-- `riot_datatypes::lcu::ParticipantTimeline`. -/
structure ParticipantTimeline where
  lane : Str
  role : Str
  deriving DecidableEq, Repr

/-- `riot_datatypes::lcu::Stats` (`riot_datatypes/src/lcu/game.rs`);
`vision_score: f64` is modelled as an exact rational. -/
structure Stats where
  kills : Int
  deaths : Int
  assists : Int
  largestMultiKill : Int
  neutralMinionsKilled : Int
  neutralMinionsKilledEnemyJungle : Int
  neutralMinionsKilledTeamJungle : Int
  totalMinionsKilled : Int
  visionScore : Rat
  visionWardsBoughtInGame : Int
  wardsPlaced : Int
  wardsKilled : Int
  gameEndedInEarlySurrender : Bool
  gameEndedInSurrender : Bool
  win : Bool
  item0 : Int
  item1 : Int
  item2 : Int
  item3 : Int
  item4 : Int
  item5 : Int
  item6 : Int
  perk0 : Int
  perk1 : Int
  perk2 : Int
  perk3 : Int
  perk4 : Int
  perk5 : Int
  perkPrimaryStyle : Int
  perkSubStyle : Int
  goldEarned : Int

/-- `riot_datatypes::lcu::Participant`. -/
structure Participant where
  participantId : Int
  teamId : Int
  championId : Int
  spell1Id : Int
  spell2Id : Int
  stats : Stats
  timeline : Option ParticipantTimeline

/-- `riot_datatypes::lcu::Ban`. -/
structure Ban where
  championId : Int
  pickTurn : Int
  deriving DecidableEq, Repr

/-- `riot_datatypes::lcu::MatchTeam`. -/
structure MatchTeam where
  teamId : Int
  win : Option String
  towerKills : Int
  inhibitorKills : Int
  baronKills : Int
  dragonKills : Int
  vilemawKills : Int
  riftHeraldKills : Int
  dominionVictoryScore : Int
  bans : List Ban
  deriving DecidableEq, Repr

/-- `riot_datatypes::Champion` (fields read by the Reconciler:
`alias` — the champion key — and `name` — the localized name). -/
structure Champion where
  championAlias : Str
  name : Str
  deriving DecidableEq, Repr

/-- `riot_datatypes::Queue`. -/
structure Queue where
  id : Int
  name : String
  isRanked : Bool
  deriving DecidableEq, Repr

/-- `riot_datatypes::MatchId`. -/
structure MatchId where
  gameId : Int
  platformId : String
  deriving DecidableEq, Repr

/-- `shaco::model::ingame::ItemPurchased`. -/
structure ItemPurchasedLive where
  eventId : Int
  eventTime : Rat
  item : PlayerItem
  shopperName : Str
  deriving DecidableEq, Repr

/-- `shaco::model::ingame::ItemSold`. -/
structure ItemSoldLive where
  eventId : Int
  eventTime : Rat
  item : PlayerItem
  shopperName : Str
  deriving DecidableEq, Repr

/-- `shaco::model::ingame::ItemUndo` (fields the recorder reads). -/
structure ItemUndoLive where
  eventId : Int
  eventTime : Rat
  itemBefore : PlayerItem
  itemAfter : PlayerItem
  goldGain : Int
  shopperName : Str
  deriving DecidableEq, Repr

/-- `shaco::model::ingame::GameEvent`: the three item kinds the Reconciler
reads plus `other`, standing for every remaining live event kind (kills,
dragons, raw timeline events, ...), carried opaquely with its event id. -/
inductive LiveGameEvent where
  | itemPurchased (e : ItemPurchasedLive)
  | itemSold (e : ItemSoldLive)
  | itemUndo (e : ItemUndoLive)
  | other (eventId : Int) (payload : Int)
  deriving DecidableEq, Repr

/-- Modelled from the spec: the normalized output event variant
(`recorder`'s `Event` type, whose defining module is not in the sources;
§3: "tagged variant over Kill / ... / ItemPurchased{pid,itemId,slot} /
ItemSold{pid,itemId,slot} / ItemUndo{pid,beforeId,afterId,goldGain} / …").
`timelineKind` stands for all non-item variants coming from the
authoritative timeline. -/
inductive Event where
  | itemPurchased (participantId itemId : Int) (slot : Option Int)
  | itemSold (participantId itemId : Int) (slot : Option Int)
  | itemUndo (participantId beforeId afterId goldGain : Int)
  | timelineKind (kind : Int) (participantId : Int)
  deriving DecidableEq, Repr

/-- Modelled from the spec: the normalized `GameEvent` output record
(§3: "(timestamp: ms since game start, event: tagged variant ...)"). -/
structure GameEvent where
  timestamp : Int
  event : Event
  deriving DecidableEq, Repr

/-- Rust `value as i64` applied to an f64 holding the exact rational `q`:
truncation toward zero (all values reached here are far inside the i64
range, so Rust's saturation does not come into play). -/
def f64AsI64 (q : Rat) : Int :=
  q.num.tdiv (q.den : Int)

/-- Rust `str::rfind(pat)`: start position of the last occurrence of
`pat` in `s`, if any. -/
def rfindStr (pat s : Str) : Option Nat :=
  ((List.range (s.length + 1)).filter (fun i => pat.isPrefixOf (s.drop i))).getLast?

/-- Rust `str::strip_prefix`. -/
def stripPrefixStr (pat s : Str) : Option Str :=
  if pat.isPrefixOf s then some (s.drop pat.length) else none

def cnameTag : Str := "#CNAME:".toList

def teamTag : Str := "#TEAM:".toList

/-- The `#CNAME:` suffix parse of `merge_live_events`
(`metadata.rs` lines 494-503): split at the last occurrence of
`"#CNAME:"`, returning the part before it and the champion name after it. -/
def splitCname (shopperName : Str) : Str × Option Str :=
  match rfindStr cnameTag shopperName with
  | some idxStart =>
    let namePart := shopperName.take idxStart
    let cnamePart := shopperName.drop idxStart
    match stripPrefixStr cnameTag cnamePart with
    | some cnameStr => (namePart, some cnameStr)
    | none => (namePart, none)
  | none => (shopperName, none)

/-- The side-string decode inside the `#TEAM:` parse
(`metadata.rs` lines 509-512). -/
def parseTeamSide (teamStr : Str) : Option Int :=
  if teamStr == "100".toList || teamStr == "ORDER".toList || teamStr == "Order".toList then
    some 100
  else if teamStr == "200".toList || teamStr == "CHAOS".toList || teamStr == "Chaos".toList then
    some 200
  else none

/-- The `#TEAM:` suffix parse of `merge_live_events`
(`metadata.rs` lines 506-520). -/
def splitTeam (intermediateName : Str) : Str × Option Int :=
  match rfindStr teamTag intermediateName with
  | some idxStart =>
    let namePart := intermediateName.take idxStart
    match stripPrefixStr teamTag (intermediateName.drop idxStart) with
    | some teamStr => (namePart, parseTeamSide teamStr)
    | none => (intermediateName, none)
  | none => (intermediateName, none)

/-- The `pid_to_team` HashMap of `merge_live_events` (lines 471-474),
built by inserting every participant: on duplicate participant ids the
last insertion wins, hence the reversed search. -/
def pidToTeam (participantsInfo : List Participant) (pid : Int) : Option Int :=
  (participantsInfo.reverse.find? (fun p => p.participantId == pid)).map (·.teamId)

/-- The identity-match predicate passed to
`participant_identities.iter().find` in `merge_live_events`
(`metadata.rs` lines 523-575). -/
def identityMatches (pidToChamp : Int → Option Champion)
    (participantsInfo : List Participant)
    (targetCname : Option Str) (targetTeamSide : Option Int)
    (actualName : Str) (pIdent : ParticipantIdentity) : Bool :=
  let pid := pIdent.participantId
  match targetCname with
  | some reqCname =>
    match pidToChamp pid with
    | some champ =>
      if champ.championAlias == reqCname || champ.name == reqCname then
        match targetTeamSide with
        | some reqTeam =>
          match pidToTeam participantsInfo pid with
          | some realTeam => realTeam == reqTeam
          | none => false
        | none => true
      else false
    | none => false
  | none =>
    let fullRiotId := pIdent.player.gameName ++ ('#' :: pIdent.player.tagLine)
    let nameMatches :=
      pIdent.player.gameName == actualName || fullRiotId == actualName
    let partialMatch :=
      !actualName.isEmpty &&
        (decide (pIdent.player.gameName <:+: actualName) ||
          decide (actualName <:+: pIdent.player.gameName))
    if !nameMatches && !partialMatch then false
    else
      match targetTeamSide with
      | some reqTeam =>
        match pidToTeam participantsInfo pid with
        | some realTeam => realTeam == reqTeam
        | none => (if pid ≤ 5 then (100 : Int) else 200) == reqTeam
      | none => true

/-- The per-event body of the `merge_live_events` loop: parse the
decorated shopper name, find the matching identity, and build the
normalized event with `timestamp = (event_time * 1000.0) as i64`
(`metadata.rs` lines 492-620).  The final `TryInto<super::Event>` is
modelled from the spec (§4.7 step 3: on match the event is converted and
pushed) as always succeeding on item events. -/
def resolveItem (participantIdentities : List ParticipantIdentity)
    (participantsInfo : List Participant) (pidToChamp : Int → Option Champion)
    (eventTime : Rat) (shopperName : Str) (mk : Int → Event) : Option GameEvent :=
  match participantIdentities.find?
      (identityMatches pidToChamp participantsInfo (splitCname shopperName).2
        (splitTeam (splitCname shopperName).1).2
        (splitTeam (splitCname shopperName).1).1) with
  | some identity =>
    some ⟨f64AsI64 (eventTime * 1000), mk identity.participantId⟩
  | none => none

/-- One iteration of the `merge_live_events` loop (lines 476-621):
`none` either because the event kind is skipped by the
`_ => continue` arm or because no identity matched. -/
def resolveLiveEvent (participantIdentities : List ParticipantIdentity)
    (participantsInfo : List Participant) (pidToChamp : Int → Option Champion) :
    LiveGameEvent → Option GameEvent
  | .itemPurchased e =>
    resolveItem participantIdentities participantsInfo pidToChamp e.eventTime e.shopperName
      (fun pid => .itemPurchased pid e.item.itemId (some e.item.slot))
  | .itemSold e =>
    resolveItem participantIdentities participantsInfo pidToChamp e.eventTime e.shopperName
      (fun pid => .itemSold pid e.item.itemId (some e.item.slot))
  | .itemUndo e =>
    resolveItem participantIdentities participantsInfo pidToChamp e.eventTime e.shopperName
      (fun pid => .itemUndo pid e.itemBefore.itemId e.itemAfter.itemId e.goldGain)
  | .other _ _ => none

/-- The comparison key of the final `current_events.sort_by_key(|e| e.timestamp)`. -/
def leTimestamp (a b : GameEvent) : Bool :=
  a.timestamp ≤ b.timestamp

/-- `merge_live_events` (`metadata.rs` lines 444-625): convert each
matching live item event, append the conversions to the timeline events
in order, and stably sort by timestamp (Rust `sort_by_key` is stable;
`List.mergeSort` is the stable sort). -/
def merge_live_events (currentEvents : List GameEvent)
    (liveEvents : List LiveGameEvent)
    (participantIdentities : List ParticipantIdentity)
    (participantsInfo : List Participant)
    (pidToChamp : Int → Option Champion) : List GameEvent :=
  (currentEvents ++
    liveEvents.filterMap (resolveLiveEvent participantIdentities participantsInfo pidToChamp)).mergeSort
    leTimestamp

/-- The event id carried by a live event. -/
def LiveGameEvent.eventIdOf : LiveGameEvent → Int
  | .itemPurchased e => e.eventId
  | .itemSold e => e.eventId
  | .itemUndo e => e.eventId
  | .other eid _ => eid

/-- The event time carried by a live item event. -/
def LiveGameEvent.eventTimeOf : LiveGameEvent → Option Rat
  | .itemPurchased e => some e.eventTime
  | .itemSold e => some e.eventTime
  | .itemUndo e => some e.eventTime
  | .other _ _ => none

/-- Whether a live event is one of the three item kinds the Reconciler reads. -/
def LiveGameEvent.isItemKind : LiveGameEvent → Bool
  | .other _ _ => false
  | _ => true

/-! ### Live Poller (`game_listener.rs`, `GameListener::run_info_poller`) -/

/-- One entry of `data.all_players` (fields the poller reads). -/
structure InGamePlayer where
  summonerName : Str
  items : List PlayerItem
  deriving DecidableEq, Repr

/-- Count of one item id in an inventory snapshot — the entries of the
`old_counts` / `new_counts` HashMaps of `run_info_poller` (lines 136-144). -/
def countItem (items : List PlayerItem) (id : Int) : Nat :=
  items.countP (fun i => i.itemId == id)

/-- `data.all_players.iter().position(|p| p.summoner_name == name).unwrap_or(0)`
(lines 157-161). -/
def playerIdx (allPlayers : List InGamePlayer) (name : Str) : Nat :=
  (allPlayers.findIdx? (fun p => p.summonerName == name)).getD 0

/-- `format!("{}#IDX:{}", name, player_idx)` (lines 162 and 190). -/
def decoratedName (allPlayers : List InGamePlayer) (name : Str) : Str :=
  name ++ "#IDX:".toList ++ (toString (playerIdx allPlayers name)).toList

/-- The body of the sell-detection loop for one item id
(`run_info_poller` lines 147-173): when the old count exceeds the new
one, emit `old − new` synthetic `ItemSold` events built from the first
old item record with that id. -/
def soldBranch (oldItems currentItems : List PlayerItem) (gameTime : Rat)
    (uname : Str) (id : Int) : List LiveGameEvent :=
  if countItem currentItems id < countItem oldItems id then
    match oldItems.find? (fun i => i.itemId == id) with
    | some itemStruct =>
      List.replicate (countItem oldItems id - countItem currentItems id)
        (.itemSold ⟨0, gameTime, itemStruct, uname⟩)
    | none => []
  else []

/-- The sell-detection loop of `run_info_poller` (lines 147-173).  The
Rust code iterates the keys of the `old_counts` HashMap in unspecified
order; the model iterates the distinct old item ids in first-occurrence
order, producing the same multiset of events. -/
def soldEventsFor (oldItems currentItems : List PlayerItem) (gameTime : Rat)
    (uname : Str) : List LiveGameEvent :=
  ((oldItems.map (·.itemId)).dedup).flatMap
    (soldBranch oldItems currentItems gameTime uname)

/-- The body of the purchase-detection loop for one item id
(`run_info_poller` lines 176-203). -/
def purchasedBranch (oldItems currentItems : List PlayerItem) (gameTime : Rat)
    (uname : Str) (id : Int) : List LiveGameEvent :=
  if countItem oldItems id < countItem currentItems id then
    match currentItems.find? (fun i => i.itemId == id) with
    | some itemStruct =>
      List.replicate (countItem currentItems id - countItem oldItems id)
        (.itemPurchased ⟨0, gameTime, itemStruct, uname⟩)
    | none => []
  else []

/-- The purchase-detection loop of `run_info_poller` (lines 176-203),
modelled like `soldEventsFor`. -/
def purchasedEventsFor (oldItems currentItems : List PlayerItem) (gameTime : Rat)
    (uname : Str) : List LiveGameEvent :=
  ((currentItems.map (·.itemId)).dedup).flatMap
    (purchasedBranch oldItems currentItems gameTime uname)

/-- The synthetic inventory events one poll tick produces for one player
(`run_info_poller` lines 122-207): sells, then purchases, each carrying
`event_id = 0`, `event_time = game_time` and the `#IDX:`-decorated
shopper name. -/
def synthInventoryEvents (allPlayers : List InGamePlayer)
    (oldItems currentItems : List PlayerItem) (gameTime : Rat) (name : Str) :
    List LiveGameEvent :=
  soldEventsFor oldItems currentItems gameTime (decoratedName allPlayers name) ++
    purchasedEventsFor oldItems currentItems gameTime (decoratedName allPlayers name)

/-! ### Session state machine (`game_listener.rs`, `GameListener`) -/

/-- `riot_datatypes::lcu::GamePhase`. -/
inductive GamePhase where
  | nonePhase
  | lobby
  | matchmaking
  | readyCheck
  | champSelect
  | gameStart
  | inProgress
  | reconnect
  | waitingForStats
  | preEndOfGame
  | endOfGame
  | terminatedInError
  | failedToLaunch
  deriving DecidableEq, Repr

/-- `riot_datatypes::lcu::GameData`. -/
structure GameData where
  gameId : Int
  queue : Queue
  gameMode : Option String
  deriving DecidableEq, Repr

/-- `riot_datatypes::lcu::SessionEventData`. -/
structure SessionEventData where
  phase : GamePhase
  gameData : GameData
  deriving DecidableEq, Repr

/-- `riot_datatypes::lcu::SubscriptionResponse`. -/
inductive SubscriptionResponse where
  | session (d : SessionEventData)
  | eogStatsBlock
  deriving DecidableEq, Repr

/-- The recorder `State` (`game_listener.rs` lines 52-64); the task
handles and buffers are abstracted to the recorded game id and the
fetched `start_lp`. -/
inductive LState where
  | idle
  | recording (gameId : Int) (startLp : Option Int)
  | endOfGame (gameId : Int) (startLp : Option Int)
  deriving DecidableEq, Repr

/-- Results of the effectful sub-calls made inside `state_transition`,
supplied as oracles. -/
structure TransitionEnv where
  /-- `settings.game_modes()` -/
  allowedModes : Option (List String)
  /-- `fetch_current_lp(&credentials)` -/
  lpFetch : Option Int
  /-- whether `recording_task.stop()` returns `Ok` -/
  stopOk : Bool
  deriving DecidableEq, Repr

/-- What one `state_transition` call did. -/
structure StepResult where
  state : LState
  lastStoppedGameId : Option Int
  /-- whether this step constructed a Recording Task and a Highlight Task
  and spawned the Live Poller (the `State::Recording(...)` construction
  in the Idle arm). -/
  spawnedRecording : Bool
  /-- `some startLp` when this step spawned the detached Metadata
  Collector task (the EndOfGame exit arm), with the `start_lp` handed to
  it. -/
  collectorSpawned : Option (Option Int)
  deriving DecidableEq, Repr

/-- The queue-id → mode-string mapping of the Idle transition
(`game_listener.rs` lines 348-361). -/
def resolveModeVal (queueId : Int) (gameMode : Option String) : String :=
  if queueId = 420 ∨ queueId = 440 then "RANKED"
  else if queueId = 400 ∨ queueId = 430 ∨ queueId = 490 then "NORMAL"
  else if queueId = 450 ∨ queueId = 100 then "ARAM"
  else if queueId = 3140 then "PRACTICE_TOOL"
  else if queueId = 1700 then "CHERRY"
  else if queueId = 830 ∨ queueId = 840 ∨ queueId = 850 ∨ queueId = 890 then "COOP_VS_AI"
  else if queueId = 1090 ∨ queueId = 1100 ∨ queueId = 1130 ∨ queueId = 1160 then "TFT"
  else if queueId = 0 then "CUSTOM"
  else
    match gameMode with
    | some s => s
    | none => "UNKNOWN"

/-- The allow-list check of the Idle transition (lines 343-372):
absent or empty list allows everything, otherwise the resolved mode is
compared case-insensitively. -/
def isModeAllowed (allowedModes : Option (List String)) (queueId : Int)
    (gameMode : Option String) : Bool :=
  match allowedModes with
  | none => true
  | some modes =>
    if modes.isEmpty then true
    else
      let modeUpper := (resolveModeVal queueId gameMode).toUpper
      modes.any (fun m => m.toUpper == modeUpper)

/-- `GameListener::state_transition` (`game_listener.rs` lines 320-585),
with its effectful sub-calls supplied by `env`. -/
def state_transition (env : TransitionEnv) (st : LState) (lastStopped : Option Int)
    (subResp : SubscriptionResponse) : StepResult :=
  match st with
  | .idle =>
    match subResp with
    | .session d =>
      if (d.phase == .gameStart || d.phase == .inProgress) &&
          some d.gameData.gameId != lastStopped then
        if isModeAllowed env.allowedModes d.gameData.queue.id d.gameData.gameMode then
          let lastStopped' := if some d.gameData.gameId != lastStopped then none else lastStopped
          let startLp := if d.gameData.queue.isRanked then env.lpFetch else none
          ⟨.recording d.gameData.gameId startLp, lastStopped', true, none⟩
        else ⟨.idle, lastStopped, false, none⟩
      else ⟨.idle, lastStopped, false, none⟩
    | .eogStatsBlock => ⟨.idle, lastStopped, false, none⟩
  | .recording g slp =>
    match subResp with
    | .session d =>
      if d.phase == .failedToLaunch || d.phase == .reconnect ||
          d.phase == .waitingForStats || d.phase == .preEndOfGame then
        if env.stopOk then ⟨.endOfGame g slp, some g, false, none⟩
        else ⟨.idle, some g, false, none⟩
      else ⟨.recording g slp, lastStopped, false, none⟩
    | .eogStatsBlock => ⟨.recording g slp, lastStopped, false, none⟩
  | .endOfGame g slp =>
    match subResp with
    | .session d =>
      if d.phase == .endOfGame || d.phase == .terminatedInError ||
          d.phase == .champSelect || d.phase == .gameStart then
        ⟨.idle, lastStopped, false, some slp⟩
      else ⟨.endOfGame g slp, lastStopped, false, none⟩
    | .eogStatsBlock => ⟨.idle, lastStopped, false, some slp⟩

/-- The `ManualStart` arm of `GameListener::run` (lines 268-306).
`poll` is the REST-polled gameflow session (`none` = request failed).
Returns the new state and whether a recording was force-started;
`lastStopped` (the listener's `last_stopped_game_id`) is in scope in the
source but neither consulted nor modified by this arm. -/
def manualStart (st : LState) (lastStopped : Option Int)
    (poll : Option SessionEventData) : LState × Bool :=
  match poll with
  | none => (st, false)
  | some d =>
    if d.phase == .gameStart || d.phase == .inProgress then
      let shouldStart :=
        match st with
        | .recording _ _ => false
        | _ => true
      if shouldStart then (.recording d.gameData.gameId none, true)
      else (st, false)
    else (st, false)

/-- The LP-diff computation of the detached collector task
(`game_listener.rs` lines 538-557): `process_data_with_retry` leaves
`lp_diff = None`; it becomes `Some(end_lp - start_lp)` exactly when a
start LP was stored at recording start and the end fetch succeeds. -/
def finalizeLpDiff (startLp : Option Int) (endLpFetch : Option Int) : Option Int :=
  match startLp with
  | none => none
  | some s =>
    match endLpFetch with
    | some e => some (e - s)
    | none => none

/-! ### Metadata Collector (`metadata.rs`, `process_data_with_retry`) -/

/-- Modelled from the spec: an opaque raw event of the authoritative
timeline (`riot_datatypes::Timeline`, whose defining module is not in
the sources). -/
abbrev RawTimelineEvent := Int

/-- Modelled from the spec: one per-participant frame of the timeline
(§4.6 step 9 reads `totalGold`, `minionsKilled`, `jungleMinionsKilled`). -/
structure ParticipantFrame where
  totalGold : Int
  minionsKilled : Int
  jungleMinionsKilled : Int
  deriving DecidableEq, Repr

/-- Modelled from the spec: one timeline frame (events plus
participant frames keyed by participant id). -/
structure TimelineFrame where
  timestamp : Int
  events : List RawTimelineEvent
  participantFrames : List (Int × ParticipantFrame)
  deriving DecidableEq, Repr

/-- Modelled from the spec: `riot_datatypes::Timeline`; its
`Default` is the empty timeline (§4.6: "A missing timeline yields an
empty events/goldTimeline"). -/
structure Timeline where
  frames : List TimelineFrame
  deriving DecidableEq, Repr

/-- `riot_datatypes::lcu::Game` (`riot_datatypes/src/lcu/game.rs`). -/
structure Game where
  gameVersion : String
  gameId : Int
  mapId : Int
  queueId : Int
  gameDuration : Int
  participantIdentities : List ParticipantIdentity
  participants : List Participant
  teams : List MatchTeam

/-- Modelled from the spec: the recorder's `ParticipantGold` output
record (§4.6 step 9), as constructed at `metadata.rs` lines 404-423. -/
structure ParticipantGold where
  participantId : Int
  totalGold : Int
  minions : Int
  deriving DecidableEq, Repr

/-- Modelled from the spec: the recorder's `GoldFrame` output record
(§3), as constructed at `metadata.rs` lines 404-423. -/
structure GoldFrame where
  timestamp : Int
  participants : List ParticipantGold
  deriving DecidableEq, Repr

/-- Modelled from the spec: the recorder's output `Participant` record,
as constructed at `metadata.rs` lines 371-402. -/
structure ParticipantOut where
  participantId : Int
  teamId : Int
  championId : Int
  spell1Id : Int
  spell2Id : Int
  stats : Stats
  lane : Str
  role : Str
  summonerName : Str

/-- Modelled from the spec: `GameMetadata` (§3), with the fields exactly
as composed at `metadata.rs` lines 425-441. -/
structure GameMetadata where
  favorite : Bool
  matchId : MatchId
  ingameTimeRecStartOffset : Rat
  highlights : List Rat
  queue : Queue
  player : Player
  championName : Str
  stats : Stats
  participantId : Int
  participants : List ParticipantOut
  teams : List MatchTeam
  events : List GameEvent
  goldTimeline : List GoldFrame
  gameVersion : String
  lpDiff : Option Int

/-- How a `process_data_with_retry` call ends: `Ok`, `Err`, or a Rust
panic (which in the source is neither). -/
inductive CollectorOutcome where
  | ok (m : GameMetadata)
  | err (msg : String)
  | panicked (msg : String)

def CollectorOutcome.errMsg : CollectorOutcome → Option String
  | .err m => some m
  | _ => none

def CollectorOutcome.isPanic : CollectorOutcome → Bool
  | .panicked _ => true
  | _ => false

def CollectorOutcome.isOk : CollectorOutcome → Bool
  | .ok _ => true
  | _ => false

def CollectorOutcome.metadata? : CollectorOutcome → Option GameMetadata
  | .ok m => some m
  | _ => none

/-- Results of the REST calls made by `process_data_with_retry`,
supplied as oracles (`none` models a failed request). -/
structure CollectorEnv where
  /-- joint result of the retry loop's `current-summoner` + `games/{id}`
  pair (`none`: the pair never arrived within the 60 attempts). -/
  playerGame : Option (Player × Game)
  /-- the `game-timelines/{id}` result at loop exit. -/
  timeline : Option Timeline
  /-- the `queues/{id}` fetch. -/
  queueFetch : Int → Option Queue
  /-- the `inventories/{summonerId}/champions/{championId}` fetch. -/
  champFetch : Int → Int → Option Champion
  /-- Modelled from the spec: the `TryInto<GameEvent>` conversion of raw
  timeline entries (§4.6 step 6: entries that do not map cleanly are
  dropped). -/
  tryIntoGameEvent : RawTimelineEvent → Option GameEvent

/-- The hardcoded swarm-champion overrides (`metadata.rs` lines 286-295). -/
def swarmChampionName (championId : Int) : Option Str :=
  if championId = 3147 then some "Riven".toList
  else if championId = 3151 then some "Jinx".toList
  else if championId = 3152 then some "Leona".toList
  else if championId = 3153 then some "Seraphine".toList
  else if championId = 3156 then some "Briar".toList
  else if championId = 3157 then some "Yasuo".toList
  else if championId = 3159 then some "Aurora".toList
  else if championId = 3678 then some "Illaoi".toList
  else if championId = 3947 then some "Xayah".toList
  else none

/-- The `pid_to_champ` HashMap built at `metadata.rs` lines 346-361:
nothing is inserted when the current player has no summoner id;
otherwise each participant whose champion fetch succeeds is inserted
(on duplicate participant ids the last insertion wins). -/
def pidToChampMap (env : CollectorEnv) (player : Player) (game : Game) :
    Int → Option Champion :=
  fun pid =>
    match player.summonerId with
    | none => none
    | some sumId =>
      match game.participants.reverse.find? (fun p => p.participantId == pid) with
      | none => none
      | some p => env.champFetch sumId p.championId

/-- The timeline-to-events conversion at `metadata.rs` lines 317-343
(failing entries are dropped by `filter_map`). -/
def timelineEvents (env : CollectorEnv) (timeline : Timeline) : List GameEvent :=
  timeline.frames.flatMap (fun frame => frame.events.filterMap env.tryIntoGameEvent)

/-- The output participants list built at `metadata.rs` lines 371-402. -/
def buildParticipants (game : Game) : List ParticipantOut :=
  game.participants.map (fun p =>
    let name :=
      match game.participantIdentities.find?
          (fun pIdent => pIdent.participantId == p.participantId) with
      | some pIdent => pIdent.player.gameName ++ ('#' :: pIdent.player.tagLine)
      | none => "Unknown".toList
    { participantId := p.participantId
      teamId := p.teamId
      championId := p.championId
      spell1Id := p.spell1Id
      spell2Id := p.spell2Id
      stats := p.stats
      lane := (p.timeline.map (·.lane)).getD "NONE".toList
      role := (p.timeline.map (·.role)).getD "NONE".toList
      summonerName := name })

/-- The gold timeline built at `metadata.rs` lines 404-423. -/
def buildGoldTimeline (timeline : Timeline) : List GoldFrame :=
  timeline.frames.map (fun frame =>
    { timestamp := frame.timestamp
      participants := frame.participantFrames.map (fun pf =>
        { participantId := pf.1
          totalGold := pf.2.totalGold
          minions := pf.2.minionsKilled + pf.2.jungleMinionsKilled }) })

/-- The final `GameMetadata` composition (`metadata.rs` lines 425-441). -/
def composeMetadata (env : CollectorEnv) (ingameTimeRecStartOffset : Rat)
    (matchId : MatchId) (liveEvents : List LiveGameEvent) (player : Player)
    (game : Game) (timeline : Timeline) (queue : Queue)
    (pIdentity : ParticipantIdentity) (participant : Participant)
    (championName : Str) : GameMetadata :=
  let events := timelineEvents env timeline
  let mergedEvents := merge_live_events events liveEvents game.participantIdentities
    game.participants (pidToChampMap env player game)
  { favorite := false
    matchId
    ingameTimeRecStartOffset
    highlights := []
    queue
    player
    championName
    stats := participant.stats
    participantId := pIdentity.participantId
    participants := buildParticipants game
    teams := game.teams
    events := mergedEvents
    goldTimeline := buildGoldTimeline timeline
    gameVersion := game.gameVersion
    lpDiff := none }

/-- The queue resolution step (`metadata.rs` lines 253-269): hardcoded
records for queue ids −1 and 0; otherwise the `queues/{id}` fetch, whose
failure propagates out of the function via `?`. -/
def resolveQueue (env : CollectorEnv) (game : Game) : Option Queue :=
  if game.queueId = -1 then some ⟨-1, "Practicetool", false⟩
  else if game.queueId = 0 then some ⟨0, "Custom Game", false⟩
  else env.queueFetch game.queueId

/-- `process_data_with_retry` (`metadata.rs` lines 217-442) with its
REST calls supplied by `env`.  A failure propagated by `?` is reported
as `err` naming the failing fetch; the `.unwrap()` on
`player.summoner_id` at line 300 is the one place a panic can occur. -/
def process_data_with_retry (env : CollectorEnv) (ingameTimeRecStartOffset : Rat)
    (matchId : MatchId) (liveEvents : List LiveGameEvent) : CollectorOutcome :=
  match env.playerGame with
  | none => .err "unable to collect game data"
  | some (player, game) =>
    let timeline := env.timeline.getD ⟨[]⟩
    match resolveQueue env game with
    | none => .err "queue fetch failed"
    | some queue =>
      match game.participantIdentities.find?
          (fun pIdent => Player.beqByName pIdent.player player) with
      | none => .err "player not found in game info"
      | some pIdentity =>
        match game.participants.find?
            (fun p => p.participantId == pIdentity.participantId) with
        | none => .err "player participant_id not found in game info"
        | some participant =>
          match swarmChampionName participant.championId with
          | some championName =>
            .ok (composeMetadata env ingameTimeRecStartOffset matchId liveEvents
              player game timeline queue pIdentity participant championName)
          | none =>
            match player.summonerId with
            | none => .panicked "called Option::unwrap on a None value"
            | some sumId =>
              match env.champFetch sumId participant.championId with
              | none => .err "champion fetch failed"
              | some champ =>
                .ok (composeMetadata env ingameTimeRecStartOffset matchId liveEvents
                  player game timeline queue pIdentity participant champ.name)

/-! ## Helper lemmas -/

/-- A concrete `Stats` record used by the concrete instances below. -/
def exampleStats : Stats :=
  ⟨0, 0, 0, 0, 0, 0, 0, 0, 0, 0, 0, 0, false, false, false,
    0, 0, 0, 0, 0, 0, 0, 0, 0, 0, 0, 0, 0, 0, 0, 0⟩

theorem leTimestamp_transitive (a b c : GameEvent) :
    leTimestamp a b → leTimestamp b c → leTimestamp a c := by
  simp only [leTimestamp, decide_eq_true_eq]
  exact Int.le_trans

theorem leTimestamp_total (a b : GameEvent) :
    leTimestamp a b || leTimestamp b a := by
  simp only [leTimestamp, Bool.or_eq_true, decide_eq_true_eq]
  exact Int.le_total _ _

/-- `rfind` misses: when the pattern is not an infix, there is no
occurrence to report. -/
theorem rfindStr_eq_none (pat s : Str) (h : ¬ pat <:+: s) : rfindStr pat s = none := by
  unfold rfindStr
  rw [List.getLast?_eq_none_iff, List.filter_eq_nil_iff]
  intro i _hi
  simp only [Bool.not_eq_true]
  by_contra hpre
  rw [Bool.not_eq_false, List.isPrefixOf_iff_prefix] at hpre
  obtain ⟨r, hr⟩ := hpre
  exact h ⟨s.take i, r, by rw [List.append_assoc, hr, List.take_append_drop]⟩

/-- For nonnegative values the Rust truncation toward zero agrees with
the floor. -/
theorem f64AsI64_eq_floor (q : Rat) (h : 0 ≤ q) : f64AsI64 q = ⌊q⌋ := by
  rw [f64AsI64, Rat.floor_def,
    Int.tdiv_eq_ediv (Rat.num_nonneg.mpr h) (Int.natCast_nonneg _)]

/-- Evaluation rule for `resolveItem` when the identity search succeeds. -/
theorem resolveItem_eval (pis : List ParticipantIdentity) (parts : List Participant)
    (champs : Int → Option Champion) (t : Rat) (s : Str) (mk : Int → Event)
    (idy : ParticipantIdentity)
    (hfind : pis.find? (identityMatches champs parts (splitCname s).2
        (splitTeam (splitCname s).1).2 (splitTeam (splitCname s).1).1) = some idy) :
    resolveItem pis parts champs t s mk =
      some ⟨f64AsI64 (t * 1000), mk idy.participantId⟩ := by
  unfold resolveItem
  rw [hfind]

/-! ## C1 — the `#IDX:` suffix -/

/-- C1 (counterexample): the Live Poller decorates every synthetic event
with `#IDX:<n>` (here `Al#IDX:0`, n = 0), but the Reconciler resolves the
event to participantId 2 — the first identity whose gameName `Al` is a
substring of the decorated name — not to n + 1 = 1, so the claimed
index-based resolution does not hold. -/
theorem c1_idx_counterexample :
    merge_live_events []
        [.itemPurchased ⟨0, 10, ⟨3031, 0⟩, "Al#IDX:0".toList⟩]
        [⟨2, ⟨"Al".toList, "1".toList, none⟩⟩] [] (fun _ => none) =
      [⟨10000, .itemPurchased 2 3031 (some 0)⟩] ∧ (2 : Int) ≠ 0 + 1 := by
  have hval : f64AsI64 ((10 : Rat) * 1000) = 10000 := by
    rw [f64AsI64_eq_floor _ (by norm_num)]
    exact Int.floor_eq_iff.mpr (by norm_num)
  have hres : resolveLiveEvent [⟨2, ⟨"Al".toList, "1".toList, none⟩⟩] [] (fun _ => none)
      (.itemPurchased ⟨0, 10, ⟨3031, 0⟩, "Al#IDX:0".toList⟩) =
      some ⟨10000, .itemPurchased 2 3031 (some 0)⟩ := by
    have h := resolveItem_eval [⟨2, ⟨"Al".toList, "1".toList, none⟩⟩] [] (fun _ => none)
      10 "Al#IDX:0".toList
      (fun pid => .itemPurchased pid 3031 (some 0))
      ⟨2, ⟨"Al".toList, "1".toList, none⟩⟩ (by decide)
    rw [hval] at h
    exact h
  refine ⟨?_, by decide⟩
  unfold merge_live_events
  rw [List.nil_append, List.filterMap_cons, hres, List.filterMap_nil]
  exact List.mergeSort_singleton _

/-- C1 (amended): `merge_live_events` never parses an `#IDX:` suffix.
For any shopper name containing no `#CNAME:` and no `#TEAM:` tag — which
includes every poller-decorated `name#IDX:<n>` whose plain name carries
no such tag — the participant is resolved purely by the first-match name
comparison (exact gameName, full riot id, or substring containment)
applied to the whole decorated string, so the resolved participantId
need not be n + 1. -/
theorem c1_idx_suffix_ignored (pis : List ParticipantIdentity)
    (parts : List Participant) (champs : Int → Option Champion)
    (eid : Int) (t : Rat) (item : PlayerItem) (s : Str)
    (hc : ¬ cnameTag <:+: s) (ht : ¬ teamTag <:+: s) :
    resolveLiveEvent pis parts champs (.itemPurchased ⟨eid, t, item, s⟩) =
      (pis.find? (identityMatches champs parts none none s)).map
        (fun idy => ⟨f64AsI64 (t * 1000),
          .itemPurchased idy.participantId item.itemId (some item.slot)⟩) := by
  have h1 : splitCname s = (s, none) := by
    unfold splitCname
    rw [rfindStr_eq_none _ _ hc]
  have h2 : splitTeam s = (s, none) := by
    unfold splitTeam
    rw [rfindStr_eq_none _ _ ht]
  unfold resolveLiveEvent resolveItem
  simp only [h1, h2]
  cases pis.find? (identityMatches champs parts none none s) <;> rfl

/-- Witness for `c1_idx_suffix_ignored` at the decorated name
`Al#IDX:0`. -/
theorem c1_idx_suffix_ignored_witness :
    resolveLiveEvent [⟨2, ⟨"Al".toList, "1".toList, none⟩⟩] [] (fun _ => none)
        (.itemPurchased ⟨0, 10, ⟨3031, 0⟩, "Al#IDX:0".toList⟩) =
      (([⟨2, ⟨"Al".toList, "1".toList, none⟩⟩] :
            List ParticipantIdentity).find?
          (identityMatches (fun _ => none) [] none none "Al#IDX:0".toList)).map
        (fun idy => ⟨f64AsI64 ((10 : Rat) * 1000),
          .itemPurchased idy.participantId 3031 (some 0)⟩) :=
  c1_idx_suffix_ignored [⟨2, ⟨"Al".toList, "1".toList, none⟩⟩] []
    (fun _ => none) 0 10 ⟨3031, 0⟩ "Al#IDX:0".toList (by decide) (by decide)

/-! ## C9 — live event timestamp conversion -/

/-- C9 (counterexample): for `eventTime = 1 + 1/1024` seconds (exactly
representable as an f64, with `eventTime * 1000` also exact), the code's
`(event_time * 1000.0) as i64` yields 1000 ms while
`round(eventTime × 1000) = 1001`, so the claimed rounding does not hold. -/
theorem c9_round_counterexample :
    merge_live_events []
        [.itemPurchased ⟨0, 1 + 1/1024, ⟨3031, 0⟩, "Al".toList⟩]
        [⟨2, ⟨"Al".toList, "1".toList, none⟩⟩] [] (fun _ => none) =
      [⟨1000, .itemPurchased 2 3031 (some 0)⟩] ∧
      round ((1 + 1/1024 : Rat) * 1000) = 1001 ∧ (1000 : Int) ≠ 1001 := by
  have hval : f64AsI64 ((1 + 1/1024 : Rat) * 1000) = 1000 := by
    rw [f64AsI64_eq_floor _ (by norm_num)]
    exact Int.floor_eq_iff.mpr (by norm_num)
  have hres : resolveLiveEvent [⟨2, ⟨"Al".toList, "1".toList, none⟩⟩] [] (fun _ => none)
      (.itemPurchased ⟨0, 1 + 1/1024, ⟨3031, 0⟩, "Al".toList⟩) =
      some ⟨1000, .itemPurchased 2 3031 (some 0)⟩ := by
    have h := resolveItem_eval [⟨2, ⟨"Al".toList, "1".toList, none⟩⟩] [] (fun _ => none)
      (1 + 1/1024) "Al".toList
      (fun pid => .itemPurchased pid 3031 (some 0))
      ⟨2, ⟨"Al".toList, "1".toList, none⟩⟩ (by decide)
    rw [hval] at h
    exact h
  refine ⟨?_, ?_, by decide⟩
  · unfold merge_live_events
    rw [List.nil_append, List.filterMap_cons, hres, List.filterMap_nil]
    exact List.mergeSort_singleton _
  · rw [round_eq]
    exact Int.floor_eq_iff.mpr (by norm_num)

/-- C9 (amended): every live item event the Reconciler matches produces a
normalized event whose timestamp is the truncation toward zero of
`eventTime × 1000` (`(event_time * 1000.0) as i64`), not its rounding. -/
theorem c9_timestamp_truncates (pis : List ParticipantIdentity)
    (parts : List Participant) (champs : Int → Option Champion)
    (lev : LiveGameEvent) (ge : GameEvent)
    (h : resolveLiveEvent pis parts champs lev = some ge) :
    ∃ t, lev.eventTimeOf = some t ∧ ge.timestamp = f64AsI64 (t * 1000) := by
  cases lev with
  | itemPurchased e =>
    refine ⟨e.eventTime, rfl, ?_⟩
    simp only [resolveLiveEvent, resolveItem] at h
    revert h
    cases pis.find? (identityMatches champs parts (splitCname e.shopperName).2
        (splitTeam (splitCname e.shopperName).1).2
        (splitTeam (splitCname e.shopperName).1).1) with
    | none => intro h; exact absurd h (by simp)
    | some idy =>
      intro h
      have h' := Option.some.inj h
      subst h'
      rfl
  | itemSold e =>
    refine ⟨e.eventTime, rfl, ?_⟩
    simp only [resolveLiveEvent, resolveItem] at h
    revert h
    cases pis.find? (identityMatches champs parts (splitCname e.shopperName).2
        (splitTeam (splitCname e.shopperName).1).2
        (splitTeam (splitCname e.shopperName).1).1) with
    | none => intro h; exact absurd h (by simp)
    | some idy =>
      intro h
      have h' := Option.some.inj h
      subst h'
      rfl
  | itemUndo e =>
    refine ⟨e.eventTime, rfl, ?_⟩
    simp only [resolveLiveEvent, resolveItem] at h
    revert h
    cases pis.find? (identityMatches champs parts (splitCname e.shopperName).2
        (splitTeam (splitCname e.shopperName).1).2
        (splitTeam (splitCname e.shopperName).1).1) with
    | none => intro h; exact absurd h (by simp)
    | some idy =>
      intro h
      have h' := Option.some.inj h
      subst h'
      rfl
  | other eid p => exact absurd h (by simp [resolveLiveEvent])

/-- Witness for `c9_timestamp_truncates` on a concrete matched purchase. -/
theorem c9_timestamp_truncates_witness :
    ∃ t, (LiveGameEvent.itemPurchased
        ⟨0, 1 + 1/1024, ⟨3031, 0⟩, "Al".toList⟩).eventTimeOf = some t ∧
      (⟨1000, Event.itemPurchased 2 3031 (some 0)⟩ : GameEvent).timestamp =
        f64AsI64 (t * 1000) :=
  c9_timestamp_truncates [⟨2, ⟨"Al".toList, "1".toList, none⟩⟩] []
    (fun _ => none) _ _ (by
      have hval : f64AsI64 ((1 + 1/1024 : Rat) * 1000) = 1000 := by
        rw [f64AsI64_eq_floor _ (by norm_num)]
        exact Int.floor_eq_iff.mpr (by norm_num)
      have h := resolveItem_eval [⟨2, ⟨"Al".toList, "1".toList, none⟩⟩] [] (fun _ => none)
        (1 + 1/1024) "Al".toList
        (fun pid => .itemPurchased pid 3031 (some 0))
        ⟨2, ⟨"Al".toList, "1".toList, none⟩⟩ (by decide)
      rw [hval] at h
      exact h)

/-! ## C10 — only item kinds are merged -/

/-- C10: every event of the merged list is either one of the timeline
events or the conversion of a live event of one of the three item kinds
(ItemPurchased / ItemSold / ItemUndo); every other live event in the
buffer is skipped. -/
theorem c10_only_item_kinds_merge (currentEvents : List GameEvent)
    (liveEvents : List LiveGameEvent) (pis : List ParticipantIdentity)
    (parts : List Participant) (champs : Int → Option Champion)
    (e : GameEvent)
    (he : e ∈ merge_live_events currentEvents liveEvents pis parts champs) :
    e ∈ currentEvents ∨ ∃ lev, lev ∈ liveEvents ∧ lev.isItemKind = true ∧
      resolveLiveEvent pis parts champs lev = some e := by
  unfold merge_live_events at he
  rw [List.mem_mergeSort] at he
  rcases List.mem_append.mp he with h | h
  · exact .inl h
  · obtain ⟨lev, hmem, hres⟩ := List.mem_filterMap.mp h
    refine .inr ⟨lev, hmem, ?_, hres⟩
    cases lev with
    | other eid p => exact absurd hres (by simp [resolveLiveEvent])
    | itemPurchased e => rfl
    | itemSold e => rfl
    | itemUndo e => rfl

/-- Witness for `c10_only_item_kinds_merge`: a merged list containing one
converted purchase (and fed a raw kill-like event that is skipped). -/
theorem c10_only_item_kinds_merge_witness :
    (⟨10000, Event.itemPurchased 2 3031 (some 0)⟩ : GameEvent) ∈
        ([] : List GameEvent) ∨
      ∃ lev, lev ∈ [LiveGameEvent.other 7 1,
          .itemPurchased ⟨0, 10, ⟨3031, 0⟩, "Al".toList⟩] ∧
        lev.isItemKind = true ∧
        resolveLiveEvent [⟨2, ⟨"Al".toList, "1".toList, none⟩⟩] [] (fun _ => none) lev =
          some ⟨10000, .itemPurchased 2 3031 (some 0)⟩ :=
  c10_only_item_kinds_merge [] [.other 7 1, .itemPurchased ⟨0, 10, ⟨3031, 0⟩, "Al".toList⟩]
    [⟨2, ⟨"Al".toList, "1".toList, none⟩⟩] [] (fun _ => none) _
    (by
      have hval : f64AsI64 ((10 : Rat) * 1000) = 10000 := by
        rw [f64AsI64_eq_floor _ (by norm_num)]
        exact Int.floor_eq_iff.mpr (by norm_num)
      have hres : resolveLiveEvent [⟨2, ⟨"Al".toList, "1".toList, none⟩⟩] [] (fun _ => none)
          (.itemPurchased ⟨0, 10, ⟨3031, 0⟩, "Al".toList⟩) =
          some ⟨10000, .itemPurchased 2 3031 (some 0)⟩ := by
        have h := resolveItem_eval [⟨2, ⟨"Al".toList, "1".toList, none⟩⟩] [] (fun _ => none)
          10 "Al".toList
          (fun pid => .itemPurchased pid 3031 (some 0))
          ⟨2, ⟨"Al".toList, "1".toList, none⟩⟩ (by decide)
        rw [hval] at h
        exact h
      unfold merge_live_events
      rw [List.mem_mergeSort, List.nil_append, List.filterMap_cons, List.filterMap_cons,
        hres, List.filterMap_nil]
      show GameEvent.mk 10000 (Event.itemPurchased 2 3031 (some 0)) ∈
        [GameEvent.mk 10000 (Event.itemPurchased 2 3031 (some 0))]
      exact List.mem_singleton_self _)

/-! ## C2 — merged list sorted and stable -/

/-- C2: the merged events list is sorted non-decreasingly by timestamp,
and the sort is stable: any two events of the pre-sort list (timeline
events first, converted live events appended after them in buffer order)
that are already in non-decreasing timestamp order keep their relative
order — in particular a converted live event with the same millisecond
timestamp as a timeline event appears after that timeline event. -/
theorem c2_merged_sorted_stable (currentEvents : List GameEvent)
    (liveEvents : List LiveGameEvent) (pis : List ParticipantIdentity)
    (parts : List Participant) (champs : Int → Option Champion) :
    (merge_live_events currentEvents liveEvents pis parts champs).Pairwise
        (fun a b => a.timestamp ≤ b.timestamp) ∧
      ∀ a b : GameEvent,
        [a, b].Sublist (currentEvents ++
            liveEvents.filterMap (resolveLiveEvent pis parts champs)) →
          a.timestamp ≤ b.timestamp →
          [a, b].Sublist (merge_live_events currentEvents liveEvents pis parts champs) := by
  constructor
  · exact (List.sorted_mergeSort leTimestamp_transitive leTimestamp_total _).imp
      (fun h => by simpa [leTimestamp] using h)
  · intro a b hsub hle
    exact List.sublist_mergeSort leTimestamp_transitive leTimestamp_total
      (by simp [leTimestamp, hle]) hsub

/-- Witness for `c2_merged_sorted_stable`: a timeline event at 5 ms and a
converted live event at the same 5 ms (eventTime 1/200 s) keep their
order — the live event stays after the timeline event. -/
theorem c2_merged_sorted_stable_witness :
    [(⟨5, .timelineKind 1 1⟩ : GameEvent), ⟨5, .itemPurchased 2 3031 (some 0)⟩].Sublist
      (merge_live_events [⟨5, .timelineKind 1 1⟩]
        [.itemPurchased ⟨0, 1/200, ⟨3031, 0⟩, "Al".toList⟩]
        [⟨2, ⟨"Al".toList, "1".toList, none⟩⟩] [] (fun _ => none)) := by
  have hval : f64AsI64 ((1/200 : Rat) * 1000) = 5 := by
    rw [f64AsI64_eq_floor _ (by norm_num)]
    exact Int.floor_eq_iff.mpr (by norm_num)
  have hres : resolveLiveEvent [⟨2, ⟨"Al".toList, "1".toList, none⟩⟩] [] (fun _ => none)
      (.itemPurchased ⟨0, 1/200, ⟨3031, 0⟩, "Al".toList⟩) =
      some ⟨5, .itemPurchased 2 3031 (some 0)⟩ := by
    have h := resolveItem_eval [⟨2, ⟨"Al".toList, "1".toList, none⟩⟩] [] (fun _ => none)
      (1/200) "Al".toList
      (fun pid => .itemPurchased pid 3031 (some 0))
      ⟨2, ⟨"Al".toList, "1".toList, none⟩⟩ (by decide)
    rw [hval] at h
    exact h
  have hfm : ([(⟨5, .timelineKind 1 1⟩ : GameEvent)] ++
      [LiveGameEvent.itemPurchased ⟨0, 1/200, ⟨3031, 0⟩, "Al".toList⟩].filterMap
        (resolveLiveEvent [⟨2, ⟨"Al".toList, "1".toList, none⟩⟩] [] (fun _ => none))) =
      [⟨5, .timelineKind 1 1⟩, ⟨5, .itemPurchased 2 3031 (some 0)⟩] := by
    rw [List.filterMap_cons, hres, List.filterMap_nil]
    rfl
  exact (c2_merged_sorted_stable [⟨5, .timelineKind 1 1⟩]
      [.itemPurchased ⟨0, 1/200, ⟨3031, 0⟩, "Al".toList⟩]
      [⟨2, ⟨"Al".toList, "1".toList, none⟩⟩] [] (fun _ => none)).2 _ _
    (by rw [hfm]) (le_refl _)

/-! ## C3 — synthetic inventory event counts -/

theorem length_flatMap_sum {α β : Type} (l : List α) (f : α → List β) :
    (l.flatMap f).length = (l.map (fun x => (f x).length)).sum := by
  induction l with
  | nil => simp
  | cons a l ih => simp [ih]

theorem listToFinset_dedup {α : Type} [DecidableEq α] (l : List α) :
    l.dedup.toFinset = l.toFinset := by
  ext x
  simp

theorem countItem_eq_zero_of_not_mem (items : List PlayerItem) (id : Int)
    (h : id ∉ items.map (·.itemId)) : countItem items id = 0 := by
  rw [countItem, List.countP_eq_zero]
  intro it hit
  simp only [beq_iff_eq]
  intro heq
  exact h (heq ▸ List.mem_map_of_mem (·.itemId) hit)

theorem find?_itemId_of_mem (items : List PlayerItem) (id : Int)
    (h : id ∈ items.map (·.itemId)) :
    ∃ it, items.find? (fun i => i.itemId == id) = some it := by
  obtain ⟨it, hit, heq⟩ := List.mem_map.mp h
  exact Option.isSome_iff_exists.mp
    (List.find?_isSome.mpr ⟨it, hit, by simp [heq]⟩)

theorem soldBranch_length (oldItems currentItems : List PlayerItem) (t : Rat)
    (u : Str) (id : Int) (hmem : id ∈ oldItems.map (·.itemId)) :
    (soldBranch oldItems currentItems t u id).length =
      countItem oldItems id - countItem currentItems id := by
  unfold soldBranch
  by_cases hlt : countItem currentItems id < countItem oldItems id
  · obtain ⟨it, hit⟩ := find?_itemId_of_mem _ _ hmem
    rw [if_pos hlt, hit, List.length_replicate]
  · rw [if_neg hlt]
    simp [Nat.sub_eq_zero_of_le (Nat.le_of_not_lt hlt)]

theorem purchasedBranch_length (oldItems currentItems : List PlayerItem) (t : Rat)
    (u : Str) (id : Int) (hmem : id ∈ currentItems.map (·.itemId)) :
    (purchasedBranch oldItems currentItems t u id).length =
      countItem currentItems id - countItem oldItems id := by
  unfold purchasedBranch
  by_cases hlt : countItem oldItems id < countItem currentItems id
  · obtain ⟨it, hit⟩ := find?_itemId_of_mem _ _ hmem
    rw [if_pos hlt, hit, List.length_replicate]
  · rw [if_neg hlt]
    simp [Nat.sub_eq_zero_of_le (Nat.le_of_not_lt hlt)]

theorem soldEventsFor_length (oldItems currentItems : List PlayerItem) (t : Rat)
    (u : Str) :
    (soldEventsFor oldItems currentItems t u).length =
      ∑ id ∈ (oldItems.map (·.itemId)).toFinset,
        (countItem oldItems id - countItem currentItems id) := by
  unfold soldEventsFor
  rw [length_flatMap_sum,
    List.map_congr_left
      (fun id hid => soldBranch_length oldItems currentItems t u id (List.mem_dedup.mp hid)),
    ← List.sum_toFinset _ (List.nodup_dedup _), listToFinset_dedup]

theorem purchasedEventsFor_length (oldItems currentItems : List PlayerItem) (t : Rat)
    (u : Str) :
    (purchasedEventsFor oldItems currentItems t u).length =
      ∑ id ∈ (currentItems.map (·.itemId)).toFinset,
        (countItem currentItems id - countItem oldItems id) := by
  unfold purchasedEventsFor
  rw [length_flatMap_sum,
    List.map_congr_left
      (fun id hid =>
        purchasedBranch_length oldItems currentItems t u id (List.mem_dedup.mp hid)),
    ← List.sum_toFinset _ (List.nodup_dedup _), listToFinset_dedup]

theorem soldEventsFor_length_union (oldItems currentItems : List PlayerItem)
    (t : Rat) (u : Str) :
    (soldEventsFor oldItems currentItems t u).length =
      ∑ id ∈ (oldItems.map (·.itemId) ++ currentItems.map (·.itemId)).toFinset,
        (countItem oldItems id - countItem currentItems id) := by
  rw [soldEventsFor_length]
  apply Finset.sum_subset
  · rw [List.toFinset_append]
    exact Finset.subset_union_left
  · intro x _ hx
    rw [countItem_eq_zero_of_not_mem oldItems x
      (fun hmem => hx (List.mem_toFinset.mpr hmem)), Nat.zero_sub]

theorem purchasedEventsFor_length_union (oldItems currentItems : List PlayerItem)
    (t : Rat) (u : Str) :
    (purchasedEventsFor oldItems currentItems t u).length =
      ∑ id ∈ (oldItems.map (·.itemId) ++ currentItems.map (·.itemId)).toFinset,
        (countItem currentItems id - countItem oldItems id) := by
  rw [purchasedEventsFor_length]
  apply Finset.sum_subset
  · rw [List.toFinset_append]
    exact Finset.subset_union_right
  · intro x _ hx
    rw [countItem_eq_zero_of_not_mem currentItems x
      (fun hmem => hx (List.mem_toFinset.mpr hmem)), Nat.zero_sub]

theorem mem_soldEventsFor (oldItems currentItems : List PlayerItem) (t : Rat)
    (u : Str) (e : LiveGameEvent) (h : e ∈ soldEventsFor oldItems currentItems t u) :
    ∃ it, e = .itemSold ⟨0, t, it, u⟩ := by
  unfold soldEventsFor at h
  obtain ⟨id, _hid, hbr⟩ := List.mem_flatMap.mp h
  unfold soldBranch at hbr
  by_cases hlt : countItem currentItems id < countItem oldItems id
  · rw [if_pos hlt] at hbr
    revert hbr
    cases oldItems.find? (fun i => i.itemId == id) with
    | none => intro hbr; exact absurd hbr (by simp)
    | some it => intro hbr; exact ⟨it, List.eq_of_mem_replicate hbr⟩
  · rw [if_neg hlt] at hbr
    exact absurd hbr (by simp)

theorem mem_purchasedEventsFor (oldItems currentItems : List PlayerItem) (t : Rat)
    (u : Str) (e : LiveGameEvent)
    (h : e ∈ purchasedEventsFor oldItems currentItems t u) :
    ∃ it, e = .itemPurchased ⟨0, t, it, u⟩ := by
  unfold purchasedEventsFor at h
  obtain ⟨id, _hid, hbr⟩ := List.mem_flatMap.mp h
  unfold purchasedBranch at hbr
  by_cases hlt : countItem oldItems id < countItem currentItems id
  · rw [if_pos hlt] at hbr
    revert hbr
    cases currentItems.find? (fun i => i.itemId == id) with
    | none => intro hbr; exact absurd hbr (by simp)
    | some it => intro hbr; exact ⟨it, List.eq_of_mem_replicate hbr⟩
  · rw [if_neg hlt] at hbr
    exact absurd hbr (by simp)

/-- C3: for one player and one poll tick, the synthesized events number
exactly `Σ_id |new_count(id) − old_count(id)|`, split by sign into
`old − new` ItemSold and `new − old` ItemPurchased events per id, and
every synthesized event carries `eventId = 0` and
`eventTime = gameTime`. -/
theorem c3_synth_inventory_events (allPlayers : List InGamePlayer)
    (oldItems currentItems : List PlayerItem) (gameTime : Rat) (name : Str) :
    (synthInventoryEvents allPlayers oldItems currentItems gameTime name).length =
        ∑ id ∈ (oldItems.map (·.itemId) ++ currentItems.map (·.itemId)).toFinset,
          ((countItem currentItems id : Int) - countItem oldItems id).natAbs ∧
      (soldEventsFor oldItems currentItems gameTime
          (decoratedName allPlayers name)).length =
        ∑ id ∈ (oldItems.map (·.itemId) ++ currentItems.map (·.itemId)).toFinset,
          (countItem oldItems id - countItem currentItems id) ∧
      (purchasedEventsFor oldItems currentItems gameTime
          (decoratedName allPlayers name)).length =
        ∑ id ∈ (oldItems.map (·.itemId) ++ currentItems.map (·.itemId)).toFinset,
          (countItem currentItems id - countItem oldItems id) ∧
      (synthInventoryEvents allPlayers oldItems currentItems gameTime name).all
        (fun e => e.eventIdOf == 0 && e.eventTimeOf == some gameTime) = true := by
    refine ⟨?_, soldEventsFor_length_union _ _ _ _,
      purchasedEventsFor_length_union _ _ _ _, ?_⟩
    · rw [synthInventoryEvents, List.length_append,
        soldEventsFor_length_union, purchasedEventsFor_length_union,
        ← Finset.sum_add_distrib]
      exact Finset.sum_congr rfl (fun id _ => by omega)
    · rw [List.all_eq_true]
      intro e he
      rw [synthInventoryEvents] at he
      rcases List.mem_append.mp he with h | h
      · obtain ⟨it, rfl⟩ := mem_soldEventsFor _ _ _ _ _ h
        simp [LiveGameEvent.eventIdOf, LiveGameEvent.eventTimeOf]
      · obtain ⟨it, rfl⟩ := mem_purchasedEventsFor _ _ _ _ _ h
        simp [LiveGameEvent.eventIdOf, LiveGameEvent.eventTimeOf]

/-! ## C6 — lastStoppedGameId suppression is idempotent -/

/-- One listener turn viewed on the `(state, lastStoppedGameId)` pair. -/
def stepFix (env : TransitionEnv) (resp : SubscriptionResponse)
    (p : LState × Option Int) : LState × Option Int :=
  ((state_transition env p.1 p.2 resp).state,
    (state_transition env p.1 p.2 resp).lastStoppedGameId)

/-- C6: from Idle with `lastStoppedGameId = some g`, a Session event with
phase GameStart or InProgress and `gameId = g` never enters Recording:
the step spawns no Recording Task / Highlight Task / Live Poller, state
and `lastStoppedGameId` are unchanged, and this holds for any number of
replays of the event. -/
theorem c6_replay_suppressed (env : TransitionEnv) (g : Int) (q : Queue)
    (gm : Option String) (ph : GamePhase)
    (hph : ph = .gameStart ∨ ph = .inProgress) (n : ℕ) :
    (stepFix env (.session ⟨ph, ⟨g, q, gm⟩⟩))^[n] (.idle, some g) = (.idle, some g) ∧
      (state_transition env .idle (some g)
          (.session ⟨ph, ⟨g, q, gm⟩⟩)).spawnedRecording = false ∧
      (state_transition env .idle (some g) (.session ⟨ph, ⟨g, q, gm⟩⟩)).state = .idle := by
  have hstep : state_transition env .idle (some g) (.session ⟨ph, ⟨g, q, gm⟩⟩) =
      ⟨.idle, some g, false, none⟩ := by
    rcases hph with h | h <;> subst h <;> simp [state_transition]
  exact ⟨Function.iterate_fixed (by simp [stepFix, hstep]) n, by rw [hstep], by rw [hstep]⟩

/-- Witness for `c6_replay_suppressed`: three replays of an InProgress
event for the just-stopped game 7 leave the listener Idle. -/
theorem c6_replay_suppressed_witness :
    ((stepFix ⟨none, none, true⟩
          (.session ⟨.inProgress, ⟨7, ⟨420, "Ranked", true⟩, none⟩⟩))^[3]
        (.idle, some 7) = (.idle, some 7)) ∧
      (state_transition ⟨none, none, true⟩ .idle (some 7)
          (.session ⟨.inProgress, ⟨7, ⟨420, "Ranked", true⟩, none⟩⟩)).spawnedRecording
        = false ∧
      (state_transition ⟨none, none, true⟩ .idle (some 7)
          (.session ⟨.inProgress, ⟨7, ⟨420, "Ranked", true⟩, none⟩⟩)).state = .idle :=
  c6_replay_suppressed ⟨none, none, true⟩ 7 ⟨420, "Ranked", true⟩ none .inProgress
    (.inr rfl) 3

/-! ## C7 — ManualStart and invariant I2 -/

/-- C7 (counterexample): with `lastStoppedGameId = some 42`, a ManualStart
whose REST poll reports InProgress with the same gameId 42 still forces a
new recording — the I2 guard is not applied on the manual-start path. -/
theorem c7_manual_start_counterexample :
    manualStart .idle (some 42)
        (some ⟨.inProgress, ⟨42, ⟨420, "Ranked", true⟩, none⟩⟩) =
      (.recording 42 none, true) := rfl

/-- C7 (amended): the forced start is not subject to I2: whenever the
polled phase is GameStart or InProgress and the listener is not already
Recording, a recording is started (with `startLp = none`), regardless of
`lastStoppedGameId`. -/
theorem c7_manual_start_ignores_i2 (st : LState) (lastStopped : Option Int)
    (d : SessionEventData) (hph : d.phase = .gameStart ∨ d.phase = .inProgress)
    (hst : st = .idle ∨ ∃ g slp, st = .endOfGame g slp) :
    manualStart st lastStopped (some d) = (.recording d.gameData.gameId none, true) := by
  obtain ⟨ph, gd⟩ := d
  simp only at hph
  rcases hph with h | h <;> subst h <;>
    rcases hst with rfl | ⟨g, slp, rfl⟩ <;> rfl

/-- Witness for `c7_manual_start_ignores_i2` (from Idle, GameStart poll,
`lastStoppedGameId` equal to the polled gameId). -/
theorem c7_manual_start_ignores_i2_witness :
    manualStart .idle (some 42)
        (some ⟨.gameStart, ⟨42, ⟨420, "Ranked", true⟩, none⟩⟩) =
      (.recording 42 none, true) :=
  c7_manual_start_ignores_i2 .idle (some 42)
    ⟨.gameStart, ⟨42, ⟨420, "Ranked", true⟩, none⟩⟩ (.inl rfl) (.inl rfl)

/-! ## C8 — lpDiff policy -/

/-- C8: when Idle starts a recording on a session event (phase GameStart
or InProgress, fresh gameId, allowed mode), the stored `startLp` is the
LP fetch result when the queue was flagged ranked and `none` otherwise;
the finalized `lpDiff` is `some d` exactly when the queue was ranked, the
start fetch returned some `s`, the end fetch returned some `e`, and
`d = e − s`; in every other case it is `none`. -/
theorem c8_lp_diff_policy (env : TransitionEnv) (g : Int) (q : Queue)
    (gm : Option String) (ph : GamePhase)
    (hph : ph = .gameStart ∨ ph = .inProgress) (lastStopped : Option Int)
    (hg : some g ≠ lastStopped)
    (hallow : isModeAllowed env.allowedModes q.id gm = true) :
    (state_transition env .idle lastStopped (.session ⟨ph, ⟨g, q, gm⟩⟩)).state =
        .recording g (if q.isRanked then env.lpFetch else none) ∧
      ∀ endFetch d,
        finalizeLpDiff (if q.isRanked then env.lpFetch else none) endFetch = some d ↔
          (q.isRanked = true ∧ ∃ s e, env.lpFetch = some s ∧ endFetch = some e ∧
            d = e - s) := by
  constructor
  · have hbne : (some g != lastStopped) = true := bne_iff_ne.mpr hg
    rcases hph with h | h <;> subst h <;> simp [state_transition, hbne, hallow]
  · intro endFetch d
    by_cases hr : q.isRanked
    · rw [if_pos hr]
      cases hlp : env.lpFetch with
      | none => simp [finalizeLpDiff, hr]
      | some s =>
        cases endFetch with
        | none => simp [finalizeLpDiff, hr]
        | some e =>
          simp only [finalizeLpDiff, hr, Option.some.injEq, true_and]
          constructor
          · rintro rfl
            exact ⟨s, e, rfl, rfl, rfl⟩
          · rintro ⟨s2, e2, hs, he, rfl⟩
            cases hs
            cases he
            rfl
    · rw [if_neg hr]
      simp [finalizeLpDiff, hr]

/-- Witness for `c8_lp_diff_policy` on a ranked queue with LP 25 at start. -/
theorem c8_lp_diff_policy_witness :
    (state_transition ⟨none, some 25, true⟩ .idle none
        (.session ⟨.gameStart, ⟨9, ⟨420, "Ranked", true⟩, none⟩⟩)).state =
        .recording 9 (if (⟨420, "Ranked", true⟩ : Queue).isRanked
          then (⟨none, some 25, true⟩ : TransitionEnv).lpFetch else none) ∧
      ∀ endFetch d,
        finalizeLpDiff (if (⟨420, "Ranked", true⟩ : Queue).isRanked
            then (⟨none, some 25, true⟩ : TransitionEnv).lpFetch else none) endFetch =
            some d ↔
          ((⟨420, "Ranked", true⟩ : Queue).isRanked = true ∧
            ∃ s e, (⟨none, some 25, true⟩ : TransitionEnv).lpFetch = some s ∧
              endFetch = some e ∧ d = e - s) :=
  c8_lp_diff_policy ⟨none, some 25, true⟩ 9 ⟨420, "Ranked", true⟩ none .gameStart
    (.inl rfl) none (by simp) rfl

/-! ## C4 — enrichment failures are not swallowed -/

/-- Fixture for C4: every REST call succeeds except the `queues/{id}`
fetch (queue id 420, so neither hardcoded case applies). -/
def c4Game : Game := ⟨"14.1", 1, 11, 420, 1800,
  [⟨3, ⟨"Al".toList, "1".toList, none⟩⟩],
  [⟨3, 100, 99, 4, 12, exampleStats, none⟩], []⟩

def c4Env : CollectorEnv :=
  ⟨some (⟨"Al".toList, "1".toList, some 77⟩, c4Game), some ⟨[]⟩,
    fun _ => none, fun _ _ => some ⟨"Lux".toList, "Lux".toList⟩, fun _ => none⟩

/-- C4 (counterexample): a REST failure on the queue fetch — a
non-critical enrichment — makes `process_data_with_retry` return an
error instead of a fallback placeholder. -/
theorem c4_queue_failure_counterexample :
    (process_data_with_retry c4Env 0 ⟨1, "EUW1"⟩ []).errMsg =
      some "queue fetch failed" := rfl

/-- C4 (amended): in `process_data_with_retry` a REST failure fetching
the queue record (queue id outside {−1, 0}) or the champion record (for
a non-swarm champion, with a summoner id present) propagates via `?` and
the function returns an error; only the timeline is defaulted, and
placeholders exist only for the hardcoded queue ids −1/0 and the swarm
champion ids. -/
theorem c4_enrichment_failure_propagates (env : CollectorEnv) (off : Rat)
    (mid : MatchId) (live : List LiveGameEvent) (pl : Player) (g : Game)
    (hpg : env.playerGame = some (pl, g)) :
    (g.queueId ≠ -1 → g.queueId ≠ 0 → env.queueFetch g.queueId = none →
      process_data_with_retry env off mid live = .err "queue fetch failed") ∧
    (∀ q pIdent participant sumId,
      resolveQueue env g = some q →
      g.participantIdentities.find? (fun x => Player.beqByName x.player pl) =
        some pIdent →
      g.participants.find? (fun p => p.participantId == pIdent.participantId) =
        some participant →
      swarmChampionName participant.championId = none →
      pl.summonerId = some sumId →
      env.champFetch sumId participant.championId = none →
      process_data_with_retry env off mid live = .err "champion fetch failed") := by
  constructor
  · intro h1 h2 h3
    have hq : resolveQueue env g = none := by
      unfold resolveQueue
      rw [if_neg h1, if_neg h2]
      exact h3
    unfold process_data_with_retry
    simp only [hpg, hq]
  · intro q pIdent participant sumId hq hfind1 hfind2 hsw hsid hcf
    unfold process_data_with_retry
    simp only [hpg, hq, hfind1, hfind2, hsw, hsid, hcf]

/-- Witness for `c4_enrichment_failure_propagates` at the C4 fixture. -/
theorem c4_enrichment_failure_propagates_witness :
    process_data_with_retry c4Env 0 ⟨1, "EUW1"⟩ [] = .err "queue fetch failed" :=
  (c4_enrichment_failure_propagates c4Env 0 ⟨1, "EUW1"⟩ []
      ⟨"Al".toList, "1".toList, some 77⟩ c4Game rfl).1
    (by decide) (by decide) rfl

/-! ## C5 — the collector can panic -/

/-- Fixture for C5: every fetch succeeds, the game is authoritative
(queue id −1, identities match), but the matched player record has no
summonerId and the champion id 1 is not a swarm override. -/
def c5Game : Game := ⟨"14.1", 2, 11, -1, 1800,
  [⟨3, ⟨"Al".toList, "1".toList, none⟩⟩],
  [⟨3, 100, 1, 4, 12, exampleStats, none⟩], []⟩

def c5Env : CollectorEnv :=
  ⟨some (⟨"Al".toList, "1".toList, none⟩, c5Game), some ⟨[]⟩,
    fun _ => none, fun _ _ => some ⟨"Lux".toList, "Lux".toList⟩, fun _ => none⟩

/-- C5: at this input — a collectible game whose matched player has no
summonerId and whose champion id is not a swarm override — the
`.unwrap()` on `player.summoner_id` (`metadata.rs` line 300) panics:
`process_data_with_retry` ends in neither Ok nor Err. -/
theorem c5_summoner_unwrap_panics :
    (process_data_with_retry c5Env 0 ⟨2, "EUW1"⟩ []).isPanic = true ∧
      (process_data_with_retry c5Env 0 ⟨2, "EUW1"⟩ []).isOk = false ∧
      (process_data_with_retry c5Env 0 ⟨2, "EUW1"⟩ []).errMsg = none :=
  ⟨rfl, rfl, rfl⟩

end LeagueRecord
